import Mathlib

/-!
Verification of the tailer/aggregator consumer
(`src/consumers/project_consumer_fintel.py`).

The consumer tails a newline-delimited JSON file and folds each line into
in-memory aggregate state: per-author message counts (`author_counts`, a
`defaultdict(int)`), per-category sentiment series (`category_sentiments`
and `category_indices`, two `defaultdict(list)`s kept in parallel), a
global `message_counter`, and `last_timestamp`.

The embedding is shallow:
* JSON values produced by `json.loads` become the mutual inductive type
  `Json` (arrays and object field lists get their own list types so that
  decidable equality can be derived; JSON numbers are carried as exact
  rationals — the code never computes with them, only stores them).
* Python dicts become insertion-ordered association lists; defaultdict
  reads/writes become explicit operations (`bumpCount`, `appendTo`,
  `ensureKey`) that insert the default on a missing key, exactly as
  `defaultdict` does.
* The two fallible library calls at the head of `process_message`
  (`bytes.decode("utf-8")` and `json.loads`) are external collaborators;
  a line is embedded by the outcome of those calls (`Line.undecodable`,
  `Line.unparsable`, or `Line.parsed j`).
* The `try/except` of `process_message` is a total function returning the
  new state plus the number of `logger.error` calls made; chart rendering
  is a side effect, so of `update_chart` only its one state effect is kept
  (a `defaultdict` read `category_indices[category]` that can insert a key).
-/

mutual
/-- A JSON value as returned by `json.loads`: `null`, booleans, numbers,
strings, arrays, and objects (ordered string-keyed fields; `json.loads`
returns a dict, so the field keys of a parsed object are distinct). -/
inductive Json where
  | null : Json
  | bool (b : Bool) : Json
  | num (q : ℚ) : Json
  | str (s : String) : Json
  | arr (elems : JsonArray) : Json
  | obj (fields : JsonFields) : Json
deriving DecidableEq

/-- The element list of a JSON array. -/
inductive JsonArray where
  | nil : JsonArray
  | cons (hd : Json) (tl : JsonArray) : JsonArray
deriving DecidableEq

/-- The ordered field list of a JSON object (the entries of the dict
`json.loads` returns). -/
inductive JsonFields where
  | nil : JsonFields
  | cons (key : String) (val : Json) (tl : JsonFields) : JsonFields
deriving DecidableEq
end

/-- Build a field list from a plain list of key/value pairs. -/
def JsonFields.ofList : List (String × Json) → JsonFields
  | [] => JsonFields.nil
  | (k, v) :: rest => JsonFields.cons k v (JsonFields.ofList rest)

/-- Lookup in a field list: `message_dict.get(key)` without a default,
returning `none` when the key is absent. -/
def findField (k : String) : JsonFields → Option Json
  | JsonFields.nil => none
  | JsonFields.cons k' v rest => if k' = k then some v else findField k rest

/-- `message_dict.get(key, default)`. -/
def pyGet (fields : JsonFields) (k : String) (default : Json) : Json :=
  (findField k fields).getD default

/-- `message_dict.get("sentiment", None)`, seen through Python's
`is not None` test: a JSON `null` value and an absent key both give Python
`None`, so both collapse to `none`; every other value is kept as is. -/
def pyGetSentiment (fields : JsonFields) : Option Json :=
  match findField "sentiment" fields with
  | some Json.null => none
  | some v => some v
  | none => none

/-- Lookup in a Json-keyed association list (a plain read of a dict entry,
first matching key wins; the update operations below keep keys distinct). -/
def findVal {β : Type} (k : Json) : List (Json × β) → Option β
  | [] => none
  | (k', v) :: rest => if k' = k then some v else findVal k rest

/-- Whether a Json-keyed association list has the key (`k in d`). -/
def hasKey {β : Type} (k : Json) : List (Json × β) → Bool
  | [] => false
  | (k', _) :: rest => decide (k' = k) || hasKey k rest

/-- `author_counts[author] += 1` on a `defaultdict(int)`: increment the
existing entry, or insert the key at the end with count 1. -/
def bumpCount (k : Json) : List (Json × Nat) → List (Json × Nat)
  | [] => [(k, 1)]
  | (k', v) :: rest => if k' = k then (k', v + 1) :: rest else (k', v) :: bumpCount k rest

/-- `d[key].append(x)` on a `defaultdict(list)`: append to the existing
entry, or insert the key at the end with the one-element list. -/
def appendTo {α : Type} (k : Json) (x : α) : List (Json × List α) → List (Json × List α)
  | [] => [(k, [x])]
  | (k', xs) :: rest =>
      if k' = k then (k', xs ++ [x]) :: rest else (k', xs) :: appendTo k x rest

/-- The state effect of a bare `defaultdict(list)` read `d[key]`: when the
key is missing it is inserted at the end with the default `[]`. -/
def ensureKey (m : List (Json × List Nat)) (k : Json) : List (Json × List Nat) :=
  if hasKey k m then m else m ++ [(k, [])]

/-- The module-level aggregate state of the consumer: `author_counts`,
`last_timestamp`, `message_counter`, `category_sentiments`,
`category_indices`. Python dicts are insertion-ordered association lists.
Author and category keys are the raw JSON values returned by `.get`, since
the code stores them without conversion. -/
structure ConsumerState where
  author_counts : List (Json × Nat)
  last_timestamp : Option Json
  message_counter : Nat
  category_sentiments : List (Json × List Json)
  category_indices : List (Json × List Nat)
deriving DecidableEq

/-- The state at module initialization: empty dicts, `message_counter = 0`,
`last_timestamp = None`. -/
def initState : ConsumerState :=
  { author_counts := []
    last_timestamp := none
    message_counter := 0
    category_sentiments := []
    category_indices := [] }

/-- One input line of `process_message`, embedded by the outcome of the two
external calls `message.decode("utf-8")` and `json.loads(message)`:
bytes that fail UTF-8 decoding, text that is not valid JSON, or text that
parses to the JSON value `j`. -/
inductive Line where
  | undecodable : Line
  | unparsable : Line
  | parsed (j : Json) : Line
deriving DecidableEq

/-- The state effect of `update_chart`: all drawing calls are side effects
on the rendering surface, and the only touch of aggregate state is the read
`category_indices[category]` for each `category` in
`category_sentiments.items()`, which on a `defaultdict` inserts a missing
key with `[]`. -/
def update_chart (s : ConsumerState) : ConsumerState :=
  { s with category_indices :=
      (s.category_sentiments.map Prod.fst).foldl ensureKey s.category_indices }

/-- Result of one `process_message` call: the aggregate state afterwards
and the number of `logger.error` calls made during the call. -/
structure StepResult where
  state : ConsumerState
  errors : Nat
deriving DecidableEq

/-- `process_message`: decode failure and JSON parse failure land in the
`except` handler (one `logger.error`, state untouched); a parsed non-object
takes the `else` branch (one `logger.error`, state untouched); a parsed
object resolves `author`/`timestamp`/`category` with their defaults and
`sentiment` with default `None`, bumps the author count, overwrites
`last_timestamp`, increments `message_counter`, appends to the two category
lists when `sentiment is not None`, and calls `update_chart`. -/
def process_message (s : ConsumerState) (line : Line) : StepResult :=
  match line with
  | Line.undecodable => { state := s, errors := 1 }
  | Line.unparsable => { state := s, errors := 1 }
  | Line.parsed j =>
    match j with
    | Json.obj fields =>
      let author := pyGet fields "author" (Json.str "unknown")
      let timestamp := pyGet fields "timestamp" (Json.str "unknown")
      let category := pyGet fields "category" (Json.str "uncategorized")
      let sentiment := pyGetSentiment fields
      let s1 : ConsumerState :=
        { s with author_counts := bumpCount author s.author_counts
                 last_timestamp := some timestamp
                 message_counter := s.message_counter + 1 }
      let s2 : ConsumerState :=
        match sentiment with
        | some v =>
          { s1 with category_sentiments := appendTo category v s1.category_sentiments
                    category_indices := appendTo category s1.message_counter s1.category_indices }
        | none => s1
      { state := update_chart s2, errors := 0 }
    | _ => { state := s, errors := 1 }

/-- Fold a sequence of lines through `process_message`, as the tailer loop
does for each non-blank line, keeping the final state. -/
def process_lines (s : ConsumerState) (lines : List Line) : ConsumerState :=
  lines.foldl (fun st l => (process_message st l).state) s

/-- Whether a line reaches the successfully-parsed-object branch of
`process_message` (the `isinstance(message_dict, dict)` test succeeds). -/
def isParsedObj : Line → Bool
  | Line.parsed (Json.obj _) => true
  | _ => false

/-- Whether a line is one of the three per-record failures: undecodable
bytes, invalid JSON, or a JSON value that is not an object. -/
def isBad : Line → Bool
  | Line.undecodable => true
  | Line.unparsable => true
  | Line.parsed (Json.obj _) => false
  | Line.parsed _ => true

/-- Whether a line parses to an object whose resolved sentiment is
non-null (the records that feed the sentiment series). -/
def hasSentiment : Line → Bool
  | Line.parsed (Json.obj fields) => (pyGetSentiment fields).isSome
  | _ => false

/-- The resolved author of a line that parses to an object
(`.get("author", "unknown")`), `none` for any failing line. -/
def authorOf : Line → Option Json
  | Line.parsed (Json.obj fields) => some (pyGet fields "author" (Json.str "unknown"))
  | _ => none

/-- The resolved timestamp of a line that parses to an object
(`.get("timestamp", "unknown")`), `none` for any failing line. -/
def tsOf : Line → Option Json
  | Line.parsed (Json.obj fields) => some (pyGet fields "timestamp" (Json.str "unknown"))
  | _ => none

/-- The resolved category of a parsed object's fields
(`.get("category", "uncategorized")`). -/
def categoryOf (fields : JsonFields) : Json :=
  pyGet fields "category" (Json.str "uncategorized")

/-- The list a Python read of `d[c]` would observe on a `defaultdict(list)`
without mutating: the stored entry, or `[]` when the key is absent. -/
def seriesAt {α : Type} (m : List (Json × List α)) (c : Json) : List α :=
  (findVal c m).getD []

/-- How `main` ends its startup phase: `sys.exit(code)` before the file is
opened, or entry into the poll loop. -/
inductive StartupOutcome where
  | exited (code : Nat) : StartupOutcome
  | enteredLoop : StartupOutcome
deriving DecidableEq

/-- Result of the startup phase of `main`: the outcome, the number of
`logger.error` calls, and the aggregate state at that point. -/
structure StartupResult where
  outcome : StartupOutcome
  errorsLogged : Nat
  state : ConsumerState
deriving DecidableEq

/-- The startup phase of `main`: if `DATA_FILE` does not exist, log an
error and `sys.exit(1)`; otherwise proceed to open the file and enter the
poll loop. Either way no record has been processed yet, so the aggregate
state is still `initState`. -/
def main_startup (dataFileExists : Bool) : StartupResult :=
  if dataFileExists then
    { outcome := StartupOutcome.enteredLoop, errorsLogged := 0, state := initState }
  else
    { outcome := StartupOutcome.exited 1, errorsLogged := 1, state := initState }

/-- The author count a Python read of `author_counts[a]` would observe on
the `defaultdict(int)` without mutating: the stored entry, or 0. -/
def countAt (m : List (Json × Nat)) (a : Json) : Nat :=
  (findVal a m).getD 0

/-- The timestamp of the last line of the sequence that parses to an
object, resolved with its default — the record the claim calls the most
recent successfully parsed one. -/
def lastParsedTs : List Line → Option Json
  | [] => none
  | l :: rest =>
    match lastParsedTs rest with
    | some t => some t
    | none => tsOf l

/-- First scenario line:
`{"author":"Eve","timestamp":"t1","category":"movies","sentiment":0.9}`. -/
def eveLine1 : Line :=
  Line.parsed (Json.obj (JsonFields.ofList
    [("author", Json.str "Eve"), ("timestamp", Json.str "t1"),
     ("category", Json.str "movies"), ("sentiment", Json.num (mkRat 9 10))]))

/-- Second scenario line: `{"author":"Eve","timestamp":"t2"}`. -/
def eveLine2 : Line :=
  Line.parsed (Json.obj (JsonFields.ofList
    [("author", Json.str "Eve"), ("timestamp", Json.str "t2")]))

/-- Third scenario line:
`{"author":"Bob","timestamp":"t3","category":"movies","sentiment":0.4}`. -/
def bobLine3 : Line :=
  Line.parsed (Json.obj (JsonFields.ofList
    [("author", Json.str "Bob"), ("timestamp", Json.str "t3"),
     ("category", Json.str "movies"), ("sentiment", Json.num (mkRat 4 10))]))

/-- The three-line scenario input of the spec. -/
def scenarioLines : List Line := [eveLine1, eveLine2, bobLine3]

section Lemmas

theorem update_chart_author_counts (s : ConsumerState) :
    (update_chart s).author_counts = s.author_counts := rfl

theorem update_chart_last_timestamp (s : ConsumerState) :
    (update_chart s).last_timestamp = s.last_timestamp := rfl

theorem update_chart_message_counter (s : ConsumerState) :
    (update_chart s).message_counter = s.message_counter := rfl

theorem update_chart_category_sentiments (s : ConsumerState) :
    (update_chart s).category_sentiments = s.category_sentiments := rfl

theorem process_message_bad (s : ConsumerState) (l : Line) (h : isBad l = true) :
    process_message s l = { state := s, errors := 1 } := by
  cases l with
  | undecodable => rfl
  | unparsable => rfl
  | parsed j => cases j <;> simp_all [isBad, process_message]

theorem process_message_obj_none (s : ConsumerState) (f : JsonFields)
    (h : pyGetSentiment f = none) :
    process_message s (Line.parsed (Json.obj f)) =
      { state := update_chart
          { author_counts := bumpCount (pyGet f "author" (Json.str "unknown")) s.author_counts
            last_timestamp := some (pyGet f "timestamp" (Json.str "unknown"))
            message_counter := s.message_counter + 1
            category_sentiments := s.category_sentiments
            category_indices := s.category_indices }
        errors := 0 } := by
  simp [process_message, h]

theorem process_message_obj_some (s : ConsumerState) (f : JsonFields) (v : Json)
    (h : pyGetSentiment f = some v) :
    process_message s (Line.parsed (Json.obj f)) =
      { state := update_chart
          { author_counts := bumpCount (pyGet f "author" (Json.str "unknown")) s.author_counts
            last_timestamp := some (pyGet f "timestamp" (Json.str "unknown"))
            message_counter := s.message_counter + 1
            category_sentiments := appendTo (categoryOf f) v s.category_sentiments
            category_indices :=
              appendTo (categoryOf f) (s.message_counter + 1) s.category_indices }
        errors := 0 } := by
  simp [process_message, h, categoryOf]

theorem countAt_bumpCount (m : List (Json × Nat)) (k a : Json) :
    countAt (bumpCount k m) a = countAt m a + (if k = a then 1 else 0) := by
  induction m with
  | nil =>
    by_cases ha : k = a <;> simp [bumpCount, countAt, findVal, ha]
  | cons hd rest ih =>
    obtain ⟨k', v⟩ := hd
    by_cases hk : k' = k
    · subst hk
      by_cases ha : k' = a <;> simp [bumpCount, countAt, findVal, ha]
    · by_cases ha : k' = a
      · subst ha
        have : ¬ k = k' := fun hh => hk hh.symm
        simp [bumpCount, countAt, findVal, hk, this]
      · simpa [bumpCount, countAt, findVal, hk, ha] using ih

theorem findVal_append {β : Type} (m m' : List (Json × β)) (a : Json) :
    findVal a (m ++ m') =
      match findVal a m with
      | some v => some v
      | none => findVal a m' := by
  induction m with
  | nil => simp [findVal]
  | cons hd rest ih =>
    obtain ⟨k', v⟩ := hd
    by_cases ha : k' = a <;> simp [findVal, ha, ih]

theorem seriesAt_appendTo {α : Type} (m : List (Json × List α)) (k a : Json) (x : α) :
    seriesAt (appendTo k x m) a = seriesAt m a ++ (if k = a then [x] else []) := by
  induction m with
  | nil =>
    by_cases ha : k = a <;> simp [appendTo, seriesAt, findVal, ha]
  | cons hd rest ih =>
    obtain ⟨k', xs⟩ := hd
    by_cases hk : k' = k
    · subst hk
      by_cases ha : k' = a <;> simp [appendTo, seriesAt, findVal, ha]
    · by_cases ha : k' = a
      · subst ha
        have : ¬ k = k' := fun hh => hk hh.symm
        simp [appendTo, seriesAt, findVal, hk, this]
      · simpa [appendTo, seriesAt, findVal, hk, ha] using ih

theorem seriesAt_ensureKey (m : List (Json × List Nat)) (k a : Json) :
    seriesAt (ensureKey m k) a = seriesAt m a := by
  unfold ensureKey
  split
  · rfl
  · simp only [seriesAt, findVal_append]
    cases h : findVal a m with
    | some v => simp
    | none =>
      by_cases ha : k = a <;> simp [findVal, ha]

theorem seriesAt_foldl_ensureKey (ks : List Json) (m : List (Json × List Nat)) (a : Json) :
    seriesAt (ks.foldl ensureKey m) a = seriesAt m a := by
  induction ks generalizing m with
  | nil => rfl
  | cons k rest ih => rw [List.foldl_cons, ih, seriesAt_ensureKey]

theorem seriesAt_update_chart_indices (s : ConsumerState) (a : Json) :
    seriesAt (update_chart s).category_indices a = seriesAt s.category_indices a :=
  seriesAt_foldl_ensureKey _ _ _

theorem hasKey_append {β : Type} (m m' : List (Json × β)) (k : Json) :
    hasKey k (m ++ m') = (hasKey k m || hasKey k m') := by
  induction m with
  | nil => simp [hasKey]
  | cons hd rest ih =>
    obtain ⟨k', v⟩ := hd
    simp [hasKey, ih, Bool.or_assoc]

theorem ensureKey_of_hasKey (m : List (Json × List Nat)) (k : Json)
    (h : hasKey k m = true) : ensureKey m k = m := by
  simp [ensureKey, h]

theorem hasKey_ensureKey_self (m : List (Json × List Nat)) (k : Json) :
    hasKey k (ensureKey m k) = true := by
  unfold ensureKey
  split
  · assumption
  · simp [hasKey_append, hasKey]

theorem hasKey_ensureKey_mono (m : List (Json × List Nat)) (k c : Json)
    (h : hasKey c m = true) : hasKey c (ensureKey m k) = true := by
  unfold ensureKey
  split
  · assumption
  · simp [hasKey_append, h]

theorem hasKey_foldl_ensureKey_mono (ks : List Json) (m : List (Json × List Nat)) (c : Json)
    (h : hasKey c m = true) : hasKey c (ks.foldl ensureKey m) = true := by
  induction ks generalizing m with
  | nil => simpa
  | cons k rest ih => exact ih _ (hasKey_ensureKey_mono m k c h)

theorem hasKey_foldl_ensureKey_of_mem (ks : List Json) (m : List (Json × List Nat)) (c : Json)
    (h : c ∈ ks) : hasKey c (ks.foldl ensureKey m) = true := by
  induction ks generalizing m with
  | nil => cases h
  | cons k rest ih =>
    rcases List.mem_cons.mp h with h1 | h2
    · subst h1
      exact hasKey_foldl_ensureKey_mono rest _ c (hasKey_ensureKey_self m c)
    · exact ih _ h2

theorem foldl_ensureKey_of_all_present (ks : List Json) (m : List (Json × List Nat))
    (h : ∀ k ∈ ks, hasKey k m = true) : ks.foldl ensureKey m = m := by
  induction ks with
  | nil => rfl
  | cons k rest ih =>
    rw [List.foldl_cons, ensureKey_of_hasKey m k (h k (List.mem_cons_self k rest))]
    exact ih fun k' hk' => h k' (List.mem_cons_of_mem k hk')

theorem hasKey_eq_true_iff_mem {β : Type} (m : List (Json × β)) (k : Json) :
    hasKey k m = true ↔ k ∈ m.map Prod.fst := by
  induction m with
  | nil => simp [hasKey]
  | cons hd rest ih =>
    obtain ⟨k', v⟩ := hd
    simp only [hasKey, List.map_cons, List.mem_cons, Bool.or_eq_true, decide_eq_true_eq, ih]
    constructor
    · rintro (h1 | h2)
      · exact Or.inl h1.symm
      · exact Or.inr h2
    · rintro (h1 | h2)
      · exact Or.inl h1.symm
      · exact Or.inr h2

/-- The key invariant linking the two parallel defaultdicts: every category
present in `category_sentiments` is present in `category_indices`. -/
def keysInv (s : ConsumerState) : Prop :=
  ∀ c, hasKey c s.category_sentiments = true → hasKey c s.category_indices = true

theorem update_chart_eq_self (s : ConsumerState) (h : keysInv s) :
    update_chart s = s := by
  unfold update_chart
  have : (s.category_sentiments.map Prod.fst).foldl ensureKey s.category_indices
      = s.category_indices := by
    refine foldl_ensureKey_of_all_present _ _ fun k hk => ?_
    exact h k ((hasKey_eq_true_iff_mem _ k).mpr hk)
  rw [this]

theorem keysInv_update_chart (s : ConsumerState) : keysInv (update_chart s) := by
  intro c hc
  rw [update_chart_category_sentiments] at hc
  show hasKey c ((s.category_sentiments.map Prod.fst).foldl ensureKey s.category_indices) = true
  exact hasKey_foldl_ensureKey_of_mem _ _ c ((hasKey_eq_true_iff_mem _ c).mp hc)

theorem keysInv_process_message (s : ConsumerState) (l : Line) :
    keysInv s → keysInv (process_message s l).state := by
  intro h
  cases l with
  | undecodable => exact h
  | unparsable => exact h
  | parsed j =>
    cases j with
    | obj f =>
      cases hs : pyGetSentiment f with
      | none => rw [process_message_obj_none s f hs]; exact keysInv_update_chart _
      | some v => rw [process_message_obj_some s f v hs]; exact keysInv_update_chart _
    | null => exact h
    | bool b => exact h
    | num q => exact h
    | str t => exact h
    | arr es => exact h

theorem keysInv_initState : keysInv initState := by
  intro c hc
  simp [initState, hasKey] at hc

theorem keysInv_process_lines (lines : List Line) :
    keysInv (process_lines initState lines) := by
  have step : ∀ (acc : ConsumerState), keysInv acc → ∀ ls : List Line,
      keysInv (process_lines acc ls) := by
    intro acc hacc ls
    induction ls generalizing acc with
    | nil => exact hacc
    | cons l rest ih => exact ih _ (keysInv_process_message acc l hacc)
  exact step initState keysInv_initState lines

theorem message_counter_step (s : ConsumerState) (l : Line) :
    (process_message s l).state.message_counter
      = s.message_counter + (if isParsedObj l then 1 else 0) := by
  cases l with
  | undecodable => rfl
  | unparsable => rfl
  | parsed j =>
    cases j with
    | obj f =>
      cases hs : pyGetSentiment f with
      | none => rw [process_message_obj_none s f hs]; rfl
      | some v => rw [process_message_obj_some s f v hs]; rfl
    | null => rfl
    | bool b => rfl
    | num q => rfl
    | str t => rfl
    | arr es => rfl

theorem message_counter_fold (s : ConsumerState) (lines : List Line) :
    (process_lines s lines).message_counter
      = s.message_counter + lines.countP isParsedObj := by
  induction lines generalizing s with
  | nil => simp [process_lines]
  | cons l rest ih =>
    show (process_lines (process_message s l).state rest).message_counter = _
    rw [ih, message_counter_step]
    by_cases hl : isParsedObj l = true <;>
      simp [List.countP_cons, hl] <;> omega

theorem countAt_step (s : ConsumerState) (l : Line) (a : Json) :
    countAt (process_message s l).state.author_counts a
      = countAt s.author_counts a + (if authorOf l = some a then 1 else 0) := by
  cases l with
  | undecodable => simp [process_message, authorOf]
  | unparsable => simp [process_message, authorOf]
  | parsed j =>
    cases j with
    | obj f =>
      have key : (process_message s (Line.parsed (Json.obj f))).state.author_counts
          = bumpCount (pyGet f "author" (Json.str "unknown")) s.author_counts := by
        cases hs : pyGetSentiment f with
        | none => rw [process_message_obj_none s f hs]; rfl
        | some v => rw [process_message_obj_some s f v hs]; rfl
      rw [key, countAt_bumpCount]
      simp [authorOf]
    | null => simp [process_message, authorOf]
    | bool b => simp [process_message, authorOf]
    | num q => simp [process_message, authorOf]
    | str t => simp [process_message, authorOf]
    | arr es => simp [process_message, authorOf]

theorem countAt_fold (s : ConsumerState) (lines : List Line) (a : Json) :
    countAt (process_lines s lines).author_counts a
      = countAt s.author_counts a
        + lines.countP (fun x => decide (authorOf x = some a)) := by
  induction lines generalizing s with
  | nil => simp [process_lines]
  | cons l rest ih =>
    show countAt (process_lines (process_message s l).state rest).author_counts a = _
    rw [ih, countAt_step]
    by_cases hl : authorOf l = some a <;>
      simp [List.countP_cons, hl] <;> omega

theorem last_timestamp_step (s : ConsumerState) (l : Line) :
    (process_message s l).state.last_timestamp =
      match tsOf l with
      | some t => some t
      | none => s.last_timestamp := by
  cases l with
  | undecodable => rfl
  | unparsable => rfl
  | parsed j =>
    cases j with
    | obj f =>
      cases hs : pyGetSentiment f with
      | none => rw [process_message_obj_none s f hs]; rfl
      | some v => rw [process_message_obj_some s f v hs]; rfl
    | null => rfl
    | bool b => rfl
    | num q => rfl
    | str t => rfl
    | arr es => rfl

theorem last_timestamp_fold (s : ConsumerState) (lines : List Line) :
    (process_lines s lines).last_timestamp =
      match lastParsedTs lines with
      | some t => some t
      | none => s.last_timestamp := by
  induction lines generalizing s with
  | nil => rfl
  | cons l rest ih =>
    show (process_lines (process_message s l).state rest).last_timestamp = _
    rw [ih]
    have hcons : lastParsedTs (l :: rest)
        = match lastParsedTs rest with
          | some t => some t
          | none => tsOf l := rfl
    rw [hcons, last_timestamp_step]
    cases hrest : lastParsedTs rest with
    | some t => rfl
    | none => cases htl : tsOf l <;> rfl

end Lemmas

section Claims

/-- Claim C1, as frozen, is false on the code: `message_counter` is
incremented for every successfully parsed object record, not only for
those carrying a non-null sentiment. Processing the single record
`{"author":"Eve"}` (no sentiment) from the initial state leaves the
counter at 1 while the number of parsed records with non-null sentiment
is 0. -/
theorem C1_counterexample :
    ¬ ((process_lines initState
          [Line.parsed (Json.obj (JsonFields.ofList [("author", Json.str "Eve")]))]).message_counter
        = [Line.parsed (Json.obj (JsonFields.ofList
            [("author", Json.str "Eve")]))].countP hasSentiment) := by
  decide

/-- Claim C1 (amended): the global message index is a counter starting at
0 that is incremented once per successfully parsed object record, whether
or not the record carries a non-null sentiment: after processing any
sequence of lines it equals the number of successfully parsed object
records in the sequence. -/
theorem C1_message_counter_counts_parsed_records (lines : List Line) :
    (process_lines initState lines).message_counter = lines.countP isParsedObj := by
  simpa [initState] using message_counter_fold initState lines

/-- Claim C2: processing any line changes `message_counter` by exactly 1
when the line is a successfully parsed object record (with or without a
non-null sentiment) and by 0 otherwise; in particular it never decreases
and never changes by more than 1 per record. -/
theorem C2_message_counter_step (s : ConsumerState) (l : Line) :
    (process_message s l).state.message_counter
      = s.message_counter + (if isParsedObj l then 1 else 0) :=
  message_counter_step s l

/-- Claim C3: for a sequence of lines that each parse to a JSON object,
the author count of `a` after processing equals the number of records
whose resolved author (defaulting to "unknown") is `a`; and each single
processed record adds exactly 1 to the resolved author's count and 0 to
every other author's count. -/
theorem C3_author_counts (lines : List Line) (s : ConsumerState) (l : Line) (a : Json)
    (h : ∀ x ∈ lines, isParsedObj x = true) :
    countAt (process_lines initState lines).author_counts a
      = lines.countP (fun x => decide (authorOf x = some a)) ∧
    countAt (process_message s l).state.author_counts a
      = countAt s.author_counts a + (if authorOf l = some a then 1 else 0) := by
  refine ⟨?_, countAt_step s l a⟩
  simpa [initState, countAt, findVal] using countAt_fold initState lines a

/-- Witness for C3 at the concrete input `[Eve-record, Eve-record]` and
author "Eve". -/
theorem C3_author_counts_witness :
    countAt (process_lines initState [eveLine2, eveLine2]).author_counts (Json.str "Eve")
      = [eveLine2, eveLine2].countP (fun x => decide (authorOf x = some (Json.str "Eve"))) ∧
    countAt (process_message initState eveLine2).state.author_counts (Json.str "Eve")
      = countAt initState.author_counts (Json.str "Eve")
        + (if authorOf eveLine2 = some (Json.str "Eve") then 1 else 0) :=
  C3_author_counts [eveLine2, eveLine2] initState eveLine2 (Json.str "Eve") (by decide)

/-- Claim C4: if the sentiment list and the index list have equal length
for every category, that invariant is preserved by `process_message` and
by `update_chart`; a record with a non-null sentiment `v` appends exactly
`v` to its resolved category's sentiment list and exactly the new message
index to that category's index list, leaving every other category
untouched; a record with absent or null sentiment appends to no
category. -/
theorem C4_series_parallel (s : ConsumerState) (l : Line) (f : JsonFields) (c d v : Json)
    (hinv : ∀ e, (seriesAt s.category_sentiments e).length
        = (seriesAt s.category_indices e).length) :
    ((seriesAt (process_message s l).state.category_sentiments d).length
      = (seriesAt (process_message s l).state.category_indices d).length) ∧
    ((seriesAt (update_chart s).category_sentiments d).length
      = (seriesAt (update_chart s).category_indices d).length) ∧
    (pyGetSentiment f = some v →
      seriesAt (process_message s (Line.parsed (Json.obj f))).state.category_sentiments
          (categoryOf f)
        = seriesAt s.category_sentiments (categoryOf f) ++ [v] ∧
      seriesAt (process_message s (Line.parsed (Json.obj f))).state.category_indices
          (categoryOf f)
        = seriesAt s.category_indices (categoryOf f) ++ [s.message_counter + 1] ∧
      (c ≠ categoryOf f →
        seriesAt (process_message s (Line.parsed (Json.obj f))).state.category_sentiments c
          = seriesAt s.category_sentiments c ∧
        seriesAt (process_message s (Line.parsed (Json.obj f))).state.category_indices c
          = seriesAt s.category_indices c)) ∧
    (pyGetSentiment f = none →
      (process_message s (Line.parsed (Json.obj f))).state.category_sentiments
        = s.category_sentiments ∧
      seriesAt (process_message s (Line.parsed (Json.obj f))).state.category_indices c
        = seriesAt s.category_indices c) := by
  have hsome : ∀ (v' : Json), pyGetSentiment f = some v' →
      (process_message s (Line.parsed (Json.obj f))).state.category_sentiments
        = appendTo (categoryOf f) v' s.category_sentiments ∧
      ∀ e, seriesAt (process_message s (Line.parsed (Json.obj f))).state.category_indices e
        = seriesAt (appendTo (categoryOf f) (s.message_counter + 1) s.category_indices) e := by
    intro v' hv'
    rw [process_message_obj_some s f v' hv']
    exact ⟨rfl, fun e => seriesAt_update_chart_indices _ e⟩
  have hnone : pyGetSentiment f = none →
      (process_message s (Line.parsed (Json.obj f))).state.category_sentiments
        = s.category_sentiments ∧
      ∀ e, seriesAt (process_message s (Line.parsed (Json.obj f))).state.category_indices e
        = seriesAt s.category_indices e := by
    intro hn
    rw [process_message_obj_none s f hn]
    exact ⟨rfl, fun e => seriesAt_update_chart_indices _ e⟩
  refine ⟨?_, ?_, ?_, ?_⟩
  · cases l with
    | undecodable => exact hinv d
    | unparsable => exact hinv d
    | parsed j =>
      cases j with
      | obj g =>
        cases hs : pyGetSentiment g with
        | none =>
          rw [process_message_obj_none s g hs, update_chart_category_sentiments,
            seriesAt_update_chart_indices]
          exact hinv d
        | some w =>
          rw [process_message_obj_some s g w hs, update_chart_category_sentiments,
            seriesAt_update_chart_indices]
          show (seriesAt (appendTo (categoryOf g) w s.category_sentiments) d).length
            = (seriesAt (appendTo (categoryOf g) (s.message_counter + 1)
                s.category_indices) d).length
          rw [seriesAt_appendTo, seriesAt_appendTo]
          by_cases hd : categoryOf g = d <;> simp [hd, hinv d]
      | null => exact hinv d
      | bool b => exact hinv d
      | num q => exact hinv d
      | str t => exact hinv d
      | arr es => exact hinv d
  · rw [update_chart_category_sentiments, seriesAt_update_chart_indices]
    exact hinv d
  · intro hv
    obtain ⟨hsent, hind⟩ := hsome v hv
    refine ⟨?_, ?_, ?_⟩
    · rw [hsent, seriesAt_appendTo]; simp
    · rw [hind, seriesAt_appendTo]; simp
    · intro hc
      have hc' : ¬ (categoryOf f = c) := fun hh => hc hh.symm
      refine ⟨?_, ?_⟩
      · rw [hsent, seriesAt_appendTo]; simp [hc']
      · rw [hind, seriesAt_appendTo]; simp [hc']
  · intro hn
    obtain ⟨hsent, hind⟩ := hnone hn
    exact ⟨hsent, hind c⟩

/-- Witness for C4 at the initial state, a record with sentiment 0.9 in
category "movies", and the distinct category "books". -/
theorem C4_series_parallel_witness :
    ((seriesAt (process_message initState eveLine1).state.category_sentiments
        (Json.str "movies")).length
      = (seriesAt (process_message initState eveLine1).state.category_indices
        (Json.str "movies")).length) ∧
    ((seriesAt (update_chart initState).category_sentiments (Json.str "movies")).length
      = (seriesAt (update_chart initState).category_indices (Json.str "movies")).length) ∧
    (pyGetSentiment (JsonFields.ofList
        [("author", Json.str "Eve"), ("timestamp", Json.str "t1"),
         ("category", Json.str "movies"), ("sentiment", Json.num (mkRat 9 10))])
        = some (Json.num (mkRat 9 10)) →
      seriesAt (process_message initState (Line.parsed (Json.obj (JsonFields.ofList
          [("author", Json.str "Eve"), ("timestamp", Json.str "t1"),
           ("category", Json.str "movies"),
           ("sentiment", Json.num (mkRat 9 10))])))).state.category_sentiments
          (categoryOf (JsonFields.ofList
            [("author", Json.str "Eve"), ("timestamp", Json.str "t1"),
             ("category", Json.str "movies"), ("sentiment", Json.num (mkRat 9 10))]))
        = seriesAt initState.category_sentiments (categoryOf (JsonFields.ofList
            [("author", Json.str "Eve"), ("timestamp", Json.str "t1"),
             ("category", Json.str "movies"), ("sentiment", Json.num (mkRat 9 10))]))
          ++ [Json.num (mkRat 9 10)] ∧
      seriesAt (process_message initState (Line.parsed (Json.obj (JsonFields.ofList
          [("author", Json.str "Eve"), ("timestamp", Json.str "t1"),
           ("category", Json.str "movies"),
           ("sentiment", Json.num (mkRat 9 10))])))).state.category_indices
          (categoryOf (JsonFields.ofList
            [("author", Json.str "Eve"), ("timestamp", Json.str "t1"),
             ("category", Json.str "movies"), ("sentiment", Json.num (mkRat 9 10))]))
        = seriesAt initState.category_indices (categoryOf (JsonFields.ofList
            [("author", Json.str "Eve"), ("timestamp", Json.str "t1"),
             ("category", Json.str "movies"), ("sentiment", Json.num (mkRat 9 10))]))
          ++ [initState.message_counter + 1] ∧
      (Json.str "books" ≠ categoryOf (JsonFields.ofList
          [("author", Json.str "Eve"), ("timestamp", Json.str "t1"),
           ("category", Json.str "movies"), ("sentiment", Json.num (mkRat 9 10))]) →
        seriesAt (process_message initState (Line.parsed (Json.obj (JsonFields.ofList
            [("author", Json.str "Eve"), ("timestamp", Json.str "t1"),
             ("category", Json.str "movies"),
             ("sentiment", Json.num (mkRat 9 10))])))).state.category_sentiments
            (Json.str "books")
          = seriesAt initState.category_sentiments (Json.str "books") ∧
        seriesAt (process_message initState (Line.parsed (Json.obj (JsonFields.ofList
            [("author", Json.str "Eve"), ("timestamp", Json.str "t1"),
             ("category", Json.str "movies"),
             ("sentiment", Json.num (mkRat 9 10))])))).state.category_indices
            (Json.str "books")
          = seriesAt initState.category_indices (Json.str "books"))) ∧
    (pyGetSentiment (JsonFields.ofList
        [("author", Json.str "Eve"), ("timestamp", Json.str "t1"),
         ("category", Json.str "movies"), ("sentiment", Json.num (mkRat 9 10))]) = none →
      (process_message initState (Line.parsed (Json.obj (JsonFields.ofList
          [("author", Json.str "Eve"), ("timestamp", Json.str "t1"),
           ("category", Json.str "movies"),
           ("sentiment", Json.num (mkRat 9 10))])))).state.category_sentiments
        = initState.category_sentiments ∧
      seriesAt (process_message initState (Line.parsed (Json.obj (JsonFields.ofList
          [("author", Json.str "Eve"), ("timestamp", Json.str "t1"),
           ("category", Json.str "movies"),
           ("sentiment", Json.num (mkRat 9 10))])))).state.category_indices (Json.str "books")
        = seriesAt initState.category_indices (Json.str "books")) :=
  C4_series_parallel initState eveLine1
    (JsonFields.ofList
      [("author", Json.str "Eve"), ("timestamp", Json.str "t1"),
       ("category", Json.str "movies"), ("sentiment", Json.num (mkRat 9 10))])
    (Json.str "books") (Json.str "movies") (Json.num (mkRat 9 10)) (fun e => rfl)

/-- Claim C5: processing the three scenario lines from the initial state
yields author counts {Eve: 2, Bob: 1}, message index 3, the "movies"
sentiment series [0.9, 0.4] with index series [1, 3] (the pairs (1, 0.9)
and (3, 0.4)), and last timestamp "t3". -/
theorem C5_scenario :
    (process_lines initState scenarioLines).author_counts
      = [(Json.str "Eve", 2), (Json.str "Bob", 1)] ∧
    (process_lines initState scenarioLines).message_counter = 3 ∧
    findVal (Json.str "movies") (process_lines initState scenarioLines).category_sentiments
      = some [Json.num (mkRat 9 10), Json.num (mkRat 4 10)] ∧
    findVal (Json.str "movies") (process_lines initState scenarioLines).category_indices
      = some [1, 3] ∧
    (process_lines initState scenarioLines).last_timestamp = some (Json.str "t3") := by
  decide

/-- Claim C6: a line that cannot be decoded, is not valid JSON, or parses
to a non-object leaves the aggregate state exactly unchanged and logs
exactly one error (the embedding of `process_message` is total, so the
failure never propagates); consequently a sequence with such a line folds
to the same state as the sequence without it. -/
theorem C6_bad_line_isolated (s : ConsumerState) (l : Line) (pre post : List Line)
    (h : isBad l = true) :
    (process_message s l).state = s ∧
    (process_message s l).errors = 1 ∧
    process_lines initState (pre ++ l :: post) = process_lines initState (pre ++ post) := by
  have hb := process_message_bad s l h
  have key : ∀ st : ConsumerState, process_lines st (l :: post) = process_lines st post := by
    intro st
    show process_lines (process_message st l).state post = process_lines st post
    rw [process_message_bad st l h]
  refine ⟨by rw [hb], by rw [hb], ?_⟩
  calc process_lines initState (pre ++ l :: post)
      = process_lines (process_lines initState pre) (l :: post) := by
        simp [process_lines, List.foldl_append]
    _ = process_lines (process_lines initState pre) post := key _
    _ = process_lines initState (pre ++ post) := by
        simp [process_lines, List.foldl_append]

/-- Witness for C6: the invalid-JSON line between the two valid scenario
lines. -/
theorem C6_bad_line_isolated_witness :
    (process_message initState Line.unparsable).state = initState ∧
    (process_message initState Line.unparsable).errors = 1 ∧
    process_lines initState ([eveLine2] ++ Line.unparsable :: [bobLine3])
      = process_lines initState ([eveLine2] ++ [bobLine3]) :=
  C6_bad_line_isolated initState Line.unparsable [eveLine2] [bobLine3] (by decide)

/-- Claim C7: a successfully parsed object record overwrites
`last_timestamp` unconditionally with its resolved timestamp (defaulting
to "unknown"); any other line leaves it unchanged; and after any sequence
of lines `last_timestamp` is exactly the resolved timestamp of the most
recent successfully parsed object record (none if there was none). -/
theorem C7_last_timestamp (s : ConsumerState) (l : Line) (f : JsonFields)
    (lines : List Line) :
    (process_message s (Line.parsed (Json.obj f))).state.last_timestamp
      = some (pyGet f "timestamp" (Json.str "unknown")) ∧
    (process_message s l).state.last_timestamp
      = (match tsOf l with
         | some t => some t
         | none => s.last_timestamp) ∧
    (process_lines initState lines).last_timestamp = lastParsedTs lines := by
  refine ⟨?_, last_timestamp_step s l, ?_⟩
  · rw [last_timestamp_step]; rfl
  · rw [last_timestamp_fold]
    cases h : lastParsedTs lines with
    | some t => rfl
    | none => rfl

/-- Claim C8: when the data file does not exist at startup, `main` logs
one error and exits with status 1 (a non-zero status) before opening the
file or entering the poll loop, with the aggregate state still at its
initial value. -/
theorem C8_missing_file_exits (e : Bool) (h : e = false) :
    (main_startup e).outcome = StartupOutcome.exited 1 ∧
    (1 : Nat) ≠ 0 ∧
    (main_startup e).errorsLogged = 1 ∧
    (main_startup e).state = initState := by
  subst h
  exact ⟨rfl, by decide, rfl, rfl⟩

/-- Witness for C8 at the concrete input `false` (file absent). -/
theorem C8_missing_file_exits_witness :
    (main_startup false).outcome = StartupOutcome.exited 1 ∧
    (1 : Nat) ≠ 0 ∧
    (main_startup false).errorsLogged = 1 ∧
    (main_startup false).state = initState :=
  C8_missing_file_exits false rfl

/-- Claim C9: on every aggregate state whose two parallel category dicts
are keyed consistently — which holds for every value of the spec-level
aggregate state, and in particular for every state the consumer reaches by
processing lines from startup — `update_chart`, whose only possible state
effect is the defaultdict read of the per-category index lists, changes
nothing, and calling it twice in succession changes nothing either. -/
theorem C9_redraw_pure (s : ConsumerState) (lines : List Line) (h : keysInv s) :
    update_chart s = s ∧
    update_chart (update_chart s) = s ∧
    update_chart (process_lines initState lines) = process_lines initState lines := by
  have h1 := update_chart_eq_self s h
  exact ⟨h1, by rw [h1, h1], update_chart_eq_self _ (keysInv_process_lines lines)⟩

/-- Witness for C9 at the state reached by the three-line scenario. -/
theorem C9_redraw_pure_witness :
    update_chart (process_lines initState scenarioLines)
      = process_lines initState scenarioLines ∧
    update_chart (update_chart (process_lines initState scenarioLines))
      = process_lines initState scenarioLines ∧
    update_chart (process_lines initState scenarioLines)
      = process_lines initState scenarioLines :=
  C9_redraw_pure (process_lines initState scenarioLines) scenarioLines
    (keysInv_process_lines scenarioLines)

/-- Claim C10: the sentiment value is stored without any type validation:
whenever the `sentiment` field holds any value other than a literal JSON
`null` — a string, boolean, array, object or number alike — that value is
appended to the resolved category's series exactly as parsed, while a
record whose `sentiment` field is absent or a literal `null` leaves the
sentiment series entirely unchanged. -/
theorem C10_sentiment_not_validated (s : ConsumerState) (f g : JsonFields) (v : Json)
    (hv : findField "sentiment" f = some v) (hnn : v ≠ Json.null)
    (hg : findField "sentiment" g = none ∨ findField "sentiment" g = some Json.null) :
    seriesAt (process_message s (Line.parsed (Json.obj f))).state.category_sentiments
        (categoryOf f)
      = seriesAt s.category_sentiments (categoryOf f) ++ [v] ∧
    (process_message s (Line.parsed (Json.obj g))).state.category_sentiments
      = s.category_sentiments := by
  have hsent : pyGetSentiment f = some v := by
    unfold pyGetSentiment
    rw [hv]
    cases v with
    | null => exact absurd rfl hnn
    | bool b => rfl
    | num q => rfl
    | str t => rfl
    | arr es => rfl
    | obj fs => rfl
  have hgnone : pyGetSentiment g = none := by
    unfold pyGetSentiment
    rcases hg with h1 | h1 <;> rw [h1]
  constructor
  · rw [process_message_obj_some s f v hsent, update_chart_category_sentiments]
    show seriesAt (appendTo (categoryOf f) v s.category_sentiments) (categoryOf f) = _
    rw [seriesAt_appendTo]
    simp
  · rw [process_message_obj_none s g hgnone]
    rfl

/-- Witness for C10: sentiment `"not a number"` (a string) is appended as
is; a record with sentiment `null` appends nothing. -/
theorem C10_sentiment_not_validated_witness :
    seriesAt (process_message initState (Line.parsed (Json.obj (JsonFields.ofList
        [("category", Json.str "movies"),
         ("sentiment", Json.str "not a number")])))).state.category_sentiments
        (categoryOf (JsonFields.ofList
          [("category", Json.str "movies"), ("sentiment", Json.str "not a number")]))
      = seriesAt initState.category_sentiments (categoryOf (JsonFields.ofList
          [("category", Json.str "movies"), ("sentiment", Json.str "not a number")]))
        ++ [Json.str "not a number"] ∧
    (process_message initState (Line.parsed (Json.obj (JsonFields.ofList
        [("sentiment", Json.null)])))).state.category_sentiments
      = initState.category_sentiments :=
  C10_sentiment_not_validated initState
    (JsonFields.ofList
      [("category", Json.str "movies"), ("sentiment", Json.str "not a number")])
    (JsonFields.ofList [("sentiment", Json.null)])
    (Json.str "not a number") (by decide) (by decide) (Or.inr (by decide))

end Claims
